import Mathlib

/-!
Verification of the NeuroBridge risk-assessment pipeline.

Shallow embedding of the repository's core logic:
* `src/utils/data_processing.py` — `process_tapping_data`, `load_symptom_checklist`;
* `src/app.py` — the scoring block of `show_detect`, the `report_generated`
  gate of `show_personalize`, `handle_user_query`, `generate_report`,
  `generate_text_report`;
* `src/utils/rag_system.py` — `RESPONSE_RULES`, `DEFAULT_RESPONSES`, `get_response`.

Python floats are modelled as real numbers; the numpy statistics helpers
(`np.diff`, `np.mean`, `np.std` with its default population divisor) are
modelled by `npDiff`, `npMean`, `npStd`.  `random.choice` is modelled by an
injected natural-number index reduced modulo the list length, so every
possible pseudo-random draw is covered.  Python `dict`s keep insertion
order, so they are modelled as association lists in declaration order.
-/

/-- Model of `numpy.diff`: consecutive differences `xs[i+1] - xs[i]`. -/
def npDiff : List ℝ → List ℝ
  | x :: y :: rest => (y - x) :: npDiff (y :: rest)
  | _ => []

/-- Model of `numpy.mean`: arithmetic mean (sum divided by length). -/
noncomputable def npMean (xs : List ℝ) : ℝ := xs.sum / xs.length

/-- Model of `numpy.var` with the default `ddof = 0`: mean squared deviation,
divisor equal to the count (population variance, not the `count - 1` sample
variance). -/
noncomputable def npVariance (xs : List ℝ) : ℝ :=
  ((xs.map (fun x => (x - npMean xs) ^ 2)).sum) / xs.length

/-- Model of `numpy.std` with the default `ddof = 0`: square root of the
population variance. -/
noncomputable def npStd (xs : List ℝ) : ℝ := Real.sqrt (npVariance xs)

/-- The record returned by `process_tapping_data`
(`src/utils/data_processing.py`). -/
structure TimingFeatures where
  mean_interval : ℝ
  std_interval : ℝ
  risk_contribution : ℝ

/-- `process_tapping_data` from `src/utils/data_processing.py`: fewer than two
timestamps give the all-zero record; otherwise inter-tap intervals are the
consecutive differences, with their mean, population standard deviation, and
`risk_contribution = min(50, std_interval * 100)`. -/
noncomputable def process_tapping_data (tapping_timestamps : List ℝ) : TimingFeatures :=
  if tapping_timestamps.length < 2 then
    TimingFeatures.mk 0 0 0
  else
    let intervals := npDiff tapping_timestamps
    let mean_interval := npMean intervals
    let std_interval := npStd intervals
    let risk_contribution := min 50 (std_interval * 100)
    TimingFeatures.mk mean_interval std_interval risk_contribution

/-- `load_symptom_checklist` from `src/utils/data_processing.py`: the fixed
symptom catalog, in declaration (hence Python dict insertion) order. -/
def load_symptom_checklist : List (String × String) :=
  [("tremor", "Do you experience tremors or shaking in your hands, arms, legs, or jaw?"),
   ("rigidity", "Do you feel muscle stiffness or resistance to movement?"),
   ("bradykinesia", "Do you have slowness of movement or difficulty initiating movement?"),
   ("postural", "Do you have trouble with balance or experience falls?"),
   ("gait", "Do you have changes in your walking pattern, like shuffling steps or freezing?"),
   ("micrographia", "Has your handwriting become smaller or more crowded?"),
   ("speech", "Has your speech become softer, monotone, or slurred?"),
   ("facial", "Have you noticed reduced facial expression (masked face)?"),
   ("sleep", "Do you experience trouble sleeping or excessive daytime sleepiness?"),
   ("memory", "Do you have problems with memory or thinking clearly?")]

/-- The valid symptom identifiers, in catalog order. -/
def catalogIds : List String := load_symptom_checklist.map Prod.fst

/-- The count of `"Yes"` answers,
`sum(1 for s in st.session_state.symptoms.values() if s == "Yes")`
from `show_detect` in `src/app.py`. -/
def yesCount (symptoms : List (String × String)) : ℕ :=
  (symptoms.filter (fun s => s.2 == "Yes")).length

/-- The risk-score computation of the `Analyze Results` block of `show_detect`
in `src/app.py`: `risk_score = symptom_score * 10`; only when
`st.session_state.tapping_data` is truthy (not `None` and not the empty list)
are `tapping_analysis['risk_contribution']` added and `min(100, risk_score)`
applied. -/
noncomputable def show_detect_score (symptoms : List (String × String))
    (tapping_data : Option (List ℝ)) : ℝ :=
  let symptom_score : ℕ := yesCount symptoms
  let risk_score : ℝ := (symptom_score : ℝ) * 10
  match tapping_data with
  | none => risk_score
  | some taps =>
    if taps.isEmpty then risk_score
    else min 100 (risk_score + (process_tapping_data taps).risk_contribution)

/-- `clamp x lo hi = max lo (min hi x)`, the spec's clamp to `[lo, hi]`. -/
noncomputable def clamp (x lo hi : ℝ) : ℝ := max lo (min hi x)

/-- Boolean prefix test on character lists. -/
def isPrefixB : List Char → List Char → Bool
  | [], _ => true
  | _ :: _, [] => false
  | a :: as, b :: bs => a == b && isPrefixB as bs

/-- Boolean substring test on character lists: `needle` occurs contiguously
inside `hay`. -/
def containsSub (needle : List Char) : List Char → Bool
  | [] => isPrefixB needle []
  | c :: rest => isPrefixB needle (c :: rest) || containsSub needle rest

/-- Whether a Python regex that is a plain alternation of literal words
(such as `symptom|sign|feel`) `re.search`-matches the query: some alternative
occurs as a substring. -/
def matchesRule (q : String) (alternatives : List String) : Bool :=
  alternatives.any (fun w => containsSub w.data q.data)

/-- Model of Python `str.lower`: character-wise lower-casing (the queries and
patterns involved are ASCII, where Python and `Char.toLower` agree). -/
def pyLower (s : String) : String := String.mk (s.data.map Char.toLower)

/-- The five response sets of `RESPONSE_RULES` in `src/utils/rag_system.py`. -/
def symptomResponses : List String :=
  ["Common early symptoms include tremors, stiffness, and balance issues.",
   "Many people experience slight tremors in their hands or fingers as an early sign."]

/-- Responses for the treatment topic. -/
def treatmentResponses : List String :=
  ["Treatment often includes medications like Levodopa and physical therapy.",
   "Doctors may prescribe various medications to manage symptoms effectively."]

/-- Responses for the exercise topic. -/
def exerciseResponses : List String :=
  ["Regular exercise like walking or swimming can help maintain mobility.",
   "Physical therapy is often recommended to improve balance and coordination."]

/-- Responses for the diet topic. -/
def dietResponses : List String :=
  ["A balanced diet with plenty of fiber can help manage symptoms.",
   "Some people find that certain dietary changes help with their symptoms."]

/-- Responses for the risk-factors topic. -/
def riskFactorResponses : List String :=
  ["Risk factors include age, family history, and exposure to certain toxins.",
   "The risk increases with age, but Parkinson\x27s can affect people of all ages."]

/-- `RESPONSE_RULES` from `src/utils/rag_system.py`: each regex key is an
alternation of literal words, kept here as the list of its alternatives,
paired with the topic's fixed response set, in declaration (dict insertion)
order: symptoms, treatment, exercise, diet, risk-factors. -/
def RESPONSE_RULES : List (List String × List String) :=
  [(["symptom", "sign", "feel"], symptomResponses),
   (["treat", "medication", "drug"], treatmentResponses),
   (["exercise", "activity", "physical"], exerciseResponses),
   (["diet", "food", "eat"], dietResponses),
   (["risk", "chance", "likely"], riskFactorResponses)]

/-- `DEFAULT_RESPONSES` from `src/utils/rag_system.py`. -/
def DEFAULT_RESPONSES : List String :=
  ["I\x27m here to help with information about neurological health.",
   "That\x27s a good question about Parkinson\x27s disease management.",
   "I can provide general information, but please consult a doctor for medical advice."]

/-- Model of `random.choice`: the pseudo-random draw is injected as a natural
number reduced modulo the list length (spec section 9 asks for an injected,
seedable randomness source). -/
def choice (xs : List String) (coin : ℕ) : String := xs.getD (coin % xs.length) ""

/-- `get_response` from `src/utils/rag_system.py`: lower-case the query, scan
`RESPONSE_RULES` in declaration order, return a pseudo-random member of the
first matching topic's response set, or of `DEFAULT_RESPONSES` when no
pattern matches.  The `risk_score` argument is accepted (Python default
`None`) and never used, exactly as in the source. -/
def get_response (query : String) (risk_score : Option ℝ) (coin : ℕ) : String :=
  match RESPONSE_RULES.find? (fun rule => matchesRule (pyLower query) rule.1) with
  | some rule => choice rule.2 coin
  | none => choice DEFAULT_RESPONSES coin

/-- One chat message of `st.session_state.messages` in `src/app.py`. -/
structure Message where
  role : String
  content : String

/-- The Streamlit session state fields of `src/app.py` that the core logic
touches: `risk_score`, `symptoms`, `tapping_data`, `report_generated`,
`messages`. -/
structure SessionState where
  risk_score : Option ℝ
  symptoms : List (String × String)
  tapping_data : Option (List ℝ)
  report_generated : Bool
  messages : List Message

/-- `handle_user_query` from `src/app.py`: append the query as a `user`
message, compute the assistant response via `get_response(query,
st.session_state.risk_score)`, append it as an `assistant` message; nothing
else in the session state changes.  Returns the response together with the
updated state. -/
def handle_user_query (st : SessionState) (query : String) (coin : ℕ) :
    String × SessionState :=
  let st1 := SessionState.mk st.risk_score st.symptoms st.tapping_data
    st.report_generated (st.messages ++ [Message.mk "user" query])
  let response := get_response query st1.risk_score coin
  let st2 := SessionState.mk st1.risk_score st1.symptoms st1.tapping_data
    st1.report_generated (st1.messages ++ [Message.mk "assistant" response])
  (response, st2)

/-- Outcome of a visit to the Personalize page: either the guidance warning
(dialogue rejected, not an error), or the dialogue ran (with the assistant's
response when a query was submitted). -/
inductive PersonalizeOutcome
  | guidance (msg : String)
  | dialogue (response : Option String)

/-- The gate of `show_personalize` in `src/app.py`: when
`st.session_state.report_generated` is false the function warns
`"Please generate a report in the Connect section first."` and returns
before touching any state; otherwise a submitted query is handled by
`handle_user_query`.  The spec's `WorkflowState = ReportGenerated` is exactly
`report_generated = true` in the code. -/
def show_personalize (st : SessionState) (query : Option String) (coin : ℕ) :
    PersonalizeOutcome × SessionState :=
  if st.report_generated = false then
    (PersonalizeOutcome.guidance "Please generate a report in the Connect section first.", st)
  else
    match query with
    | none => (PersonalizeOutcome.dialogue none, st)
    | some q =>
      let r := handle_user_query st q coin
      (PersonalizeOutcome.dialogue (some r.1), r.2)

/-- The fixed recommendation list shared by both report generators in
`src/app.py`. -/
def fixedRecommendations : List String :=
  ["Discuss these results with a healthcare provider",
   "Monitor symptoms regularly",
   "Consider lifestyle modifications like regular exercise and a balanced diet"]

/-- The structured report dict built by `generate_report` in `src/app.py`
(before `json.dumps` serialises it): exactly the four fields `risk_score`,
`symptoms`, `date`, `recommendations`. -/
structure Report where
  risk_score : ℝ
  symptoms : List (String × String)
  date : String
  recommendations : List String

/-- `generate_report` from `src/app.py`: the report dict.  The `date` field
(`str(datetime.now())`) is abstracted as the `now` string parameter;
`{s: v for s, v in symptoms.items()}` copies the mapping unchanged. -/
def generate_report (symptoms : List (String × String)) (risk_score : ℝ)
    (now : String) : Report :=
  Report.mk risk_score symptoms now fixedRecommendations

/-- The ids answered `"Yes"`,
`[s for s, v in symptoms.items() if v == "Yes"]` from `generate_text_report`
in `src/app.py`. -/
def positiveSymptoms (symptoms : List (String × String)) : List String :=
  (symptoms.filter (fun p => p.2 == "Yes")).map Prod.fst

/-- `generate_text_report` from `src/app.py`: the f-string template, with the
rendered score (`f"{risk_score}"`) and the rendered timestamp
(`datetime.now().strftime(...)`) abstracted as string parameters.  The
symptom line is the comma-join of the positive ids, or the literal `"None"`
when there are none. -/
def generate_text_report (symptoms : List (String × String))
    (riskScoreText nowText : String) : String :=
  "NeuroBridge Health Report\nGenerated on: " ++ nowText ++
  "\n\nRisk Score: " ++ riskScoreText ++ "%\n\nSymptoms reported:\n" ++
  (if (positiveSymptoms symptoms).isEmpty then "None"
   else String.intercalate ", " (positiveSymptoms symptoms)) ++
  "\n\nRecommendations:\n- Discuss these results with a healthcare provider\n- Monitor symptoms regularly\n- Consider lifestyle modifications like regular exercise and a balanced diet\n\nNote: This is a screening tool, not a medical diagnosis.\n"

/-- `needle` occurs contiguously inside `hay`. -/
def ContainsStr (hay needle : String) : Prop :=
  ∃ pre post : String, hay = pre ++ needle ++ post

/-! ### Helper lemmas -/

theorem risk_contribution_nonneg (taps : List ℝ) :
    0 ≤ (process_tapping_data taps).risk_contribution := by
  unfold process_tapping_data
  by_cases h : taps.length < 2
  · simp [h]
  · simp only [h, if_false]
    exact le_min (by norm_num)
      (mul_nonneg (Real.sqrt_nonneg _) (by norm_num))

theorem risk_contribution_le_50 (taps : List ℝ) :
    (process_tapping_data taps).risk_contribution ≤ 50 := by
  unfold process_tapping_data
  by_cases h : taps.length < 2
  · simp [h]
  · simp only [h, if_false]
    exact min_le_left _ _

theorem yesCount_le_ten (symptoms : List (String × String))
    (hnd : (symptoms.map Prod.fst).Nodup)
    (hsub : ∀ p ∈ symptoms, p.1 ∈ catalogIds) :
    yesCount symptoms ≤ 10 := by
  have h1 : yesCount symptoms ≤ symptoms.length := List.length_filter_le _ _
  have hsub2 : ∀ x ∈ symptoms.map Prod.fst, x ∈ catalogIds := by
    intro x hx
    rcases List.mem_map.mp hx with ⟨p, hp, rfl⟩
    exact hsub p hp
  have h2 : (symptoms.map Prod.fst).toFinset.card = (symptoms.map Prod.fst).length :=
    List.toFinset_card_of_nodup hnd
  have h3 : (symptoms.map Prod.fst).toFinset ⊆ catalogIds.toFinset := by
    intro x hx
    exact List.mem_toFinset.mpr (hsub2 x (List.mem_toFinset.mp hx))
  have h4 := Finset.card_le_card h3
  have h5 : catalogIds.toFinset.card ≤ catalogIds.length :=
    List.toFinset_card_le catalogIds
  have h6 : catalogIds.length = 10 := rfl
  have h7 : (symptoms.map Prod.fst).length = symptoms.length := List.length_map _ _
  omega

theorem score_nonneg (symptoms : List (String × String))
    (tapping_data : Option (List ℝ)) :
    0 ≤ show_detect_score symptoms tapping_data := by
  have hy : (0 : ℝ) ≤ (yesCount symptoms : ℝ) * 10 := by positivity
  unfold show_detect_score
  match tapping_data with
  | none => exact hy
  | some taps =>
    by_cases he : taps.isEmpty
    · simp only [he, if_true]
      exact_mod_cast hy
    · simp only [he, if_false]
      exact le_min (by norm_num)
        (add_nonneg hy (risk_contribution_nonneg taps))

theorem score_le_100 (symptoms : List (String × String))
    (tapping_data : Option (List ℝ))
    (hnd : (symptoms.map Prod.fst).Nodup)
    (hsub : ∀ p ∈ symptoms, p.1 ∈ catalogIds) :
    show_detect_score symptoms tapping_data ≤ 100 := by
  have hy : (yesCount symptoms : ℝ) ≤ 10 := by
    exact_mod_cast yesCount_le_ten symptoms hnd hsub
  have hy10 : (yesCount symptoms : ℝ) * 10 ≤ 100 := by linarith
  unfold show_detect_score
  match tapping_data with
  | none => exact hy10
  | some taps =>
    by_cases he : taps.isEmpty
    · simp only [he, if_true]
      exact_mod_cast hy10
    · simp only [he, if_false]
      exact min_le_left _ _

/-! ### Claim theorems -/

/-- Claim C4: for every TapSequence of length strictly less than 2 (empty or a
single timestamp), the extractor returns the degenerate record
`{mean_interval: 0, std_interval: 0, risk_contribution: 0}` and does not
fail. -/
theorem C4_degenerate_taps (taps : List ℝ) (h : taps.length < 2) :
    process_tapping_data taps = TimingFeatures.mk 0 0 0 := by
  unfold process_tapping_data
  simp [h]

theorem C4_degenerate_taps_witness :
    ([] : List ℝ).length < 2
    ∧ process_tapping_data [] = TimingFeatures.mk 0 0 0 :=
  ⟨by norm_num, C4_degenerate_taps [] (by norm_num)⟩

/-- Claim C3: for every TapSequence of at least 2 monotonically non-decreasing
timestamps, the extractor computes intervals as consecutive differences,
`mean_interval` as their arithmetic mean, `std_interval` as the population
standard deviation (divisor = count, not count - 1), and
`risk_contribution = min(50, std_interval * 100)`; consequently
`0 ≤ risk_contribution ≤ 50`, and the mapping from `std_interval` to
`risk_contribution` is non-decreasing. -/
theorem C3_feature_extraction (taps : List ℝ) (h2 : 2 ≤ taps.length)
    (hmono : List.Chain' (fun a b => a ≤ b) taps) :
    (process_tapping_data taps).mean_interval
        = (npDiff taps).sum / (npDiff taps).length
    ∧ (process_tapping_data taps).std_interval
        = Real.sqrt ((((npDiff taps).map
            (fun x => (x - (npDiff taps).sum / (npDiff taps).length) ^ 2)).sum)
          / (npDiff taps).length)
    ∧ (process_tapping_data taps).risk_contribution
        = min 50 ((process_tapping_data taps).std_interval * 100)
    ∧ 0 ≤ (process_tapping_data taps).risk_contribution
    ∧ (process_tapping_data taps).risk_contribution ≤ 50
    ∧ ∀ s₁ s₂ : ℝ, s₁ ≤ s₂ → min 50 (s₁ * 100) ≤ min 50 (s₂ * 100) := by
  have hlt : ¬ taps.length < 2 := Nat.not_lt.mpr h2
  refine ⟨?_, ?_, ?_, risk_contribution_nonneg taps,
    risk_contribution_le_50 taps, ?_⟩
  · unfold process_tapping_data
    simp [hlt, npMean]
  · unfold process_tapping_data
    simp [hlt, npStd, npVariance, npMean]
  · unfold process_tapping_data
    simp [hlt]
  · intro s₁ s₂ h
    exact min_le_min le_rfl (mul_le_mul_of_nonneg_right h (by norm_num))

theorem C3_feature_extraction_witness :
    2 ≤ ([(0 : ℝ), 1, 2]).length
    ∧ List.Chain' (fun a b => a ≤ b) [(0 : ℝ), 1, 2]
    ∧ (0 ≤ (process_tapping_data [(0 : ℝ), 1, 2]).risk_contribution
        ∧ (process_tapping_data [(0 : ℝ), 1, 2]).risk_contribution ≤ 50) := by
  have h2 : 2 ≤ ([(0 : ℝ), 1, 2]).length := by norm_num
  have hm : List.Chain' (fun a b => a ≤ b) [(0 : ℝ), 1, 2] := by
    simp [List.chain'_cons]
  have h := C3_feature_extraction [(0 : ℝ), 1, 2] h2 hm
  exact ⟨h2, hm, h.2.2.2.1, h.2.2.2.2.1⟩

/-- Claim C1: for every SymptomResponses whose keys are valid catalog ids and
every optional TapSequence, the composite score equals
`clamp(10 * yesCount + (risk_contribution when taps are present, else 0), 0, 100)`;
in particular empty responses with no taps yield 0, and ten `"Yes"` answers
yield 100 regardless of any timing contribution (the bounds `[0, 100]` follow
from the clamp form). -/
theorem C1_composite_score (symptoms : List (String × String))
    (tapping_data : Option (List ℝ))
    (hnd : (symptoms.map Prod.fst).Nodup)
    (hsub : ∀ p ∈ symptoms, p.1 ∈ catalogIds) :
    show_detect_score symptoms tapping_data
      = clamp ((10 : ℝ) * yesCount symptoms
          + (match tapping_data with
             | some taps => (process_tapping_data taps).risk_contribution
             | none => 0)) 0 100
    ∧ (symptoms = [] ∧ tapping_data = none →
        show_detect_score symptoms tapping_data = 0)
    ∧ (yesCount symptoms = 10 →
        show_detect_score symptoms tapping_data = 100) := by
  have hy : (yesCount symptoms : ℝ) ≤ 10 := by
    exact_mod_cast yesCount_le_ten symptoms hnd hsub
  have hy0 : (0 : ℝ) ≤ (yesCount symptoms : ℝ) := Nat.cast_nonneg _
  refine ⟨?_, ?_, ?_⟩
  · unfold show_detect_score clamp
    cases tapping_data with
    | none =>
      simp only [add_zero]
      rw [min_eq_right (by linarith), max_eq_right (by linarith)]
      ring
    | some taps =>
      by_cases he : taps.isEmpty
      · have htaps : taps = [] := by
          cases taps with
          | nil => rfl
          | cons a t => simp at he
        subst htaps
        have hrc : (process_tapping_data ([] : List ℝ)).risk_contribution = 0 := by
          unfold process_tapping_data
          norm_num
        simp only [List.isEmpty_nil, if_true, hrc, add_zero]
        rw [min_eq_right (by linarith), max_eq_right (by linarith)]
        ring
      · have hrc0 := risk_contribution_nonneg taps
        simp only [he, Bool.false_eq_true, if_false]
        rw [max_eq_right (le_min (by norm_num) (by linarith))]
        ring_nf
  · rintro ⟨rfl, rfl⟩
    unfold show_detect_score
    simp [yesCount]
  · intro h10
    unfold show_detect_score
    cases tapping_data with
    | none => rw [h10]; norm_num
    | some taps =>
      by_cases he : taps.isEmpty
      · simp only [he, if_true, h10]
        norm_num
      · have hrc0 := risk_contribution_nonneg taps
        simp only [he, Bool.false_eq_true, if_false, h10]
        rw [min_eq_left (by push_cast; linarith)]

theorem C1_composite_score_witness :
    ((([("tremor", "Yes")] : List (String × String)).map Prod.fst).Nodup
      ∧ (∀ p ∈ ([("tremor", "Yes")] : List (String × String)), p.1 ∈ catalogIds))
    ∧ show_detect_score [("tremor", "Yes")] none
        = clamp ((10 : ℝ) * yesCount [("tremor", "Yes")] + 0) 0 100 :=
  ⟨⟨by decide, by decide⟩,
   (C1_composite_score [("tremor", "Yes")] none (by decide) (by decide)).1⟩

/-- Claim C2, corrected: the final risk score is a single REAL number in
`[0, 100]` — intermediate addition of the symptom component and the timing
contribution uses real arithmetic, the upper clamp `min(100, ·)` is applied
after the addition, and the result is never truncated or rounded to an
integer (the code performs no quantization at all). -/
theorem C2_real_score_bounds (symptoms : List (String × String))
    (tapping_data : Option (List ℝ))
    (hnd : (symptoms.map Prod.fst).Nodup)
    (hsub : ∀ p ∈ symptoms, p.1 ∈ catalogIds) :
    0 ≤ show_detect_score symptoms tapping_data
    ∧ show_detect_score symptoms tapping_data ≤ 100 :=
  ⟨score_nonneg symptoms tapping_data,
   score_le_100 symptoms tapping_data hnd hsub⟩

theorem C2_real_score_bounds_witness :
    ((([] : List (String × String)).map Prod.fst).Nodup
      ∧ (∀ p ∈ ([] : List (String × String)), p.1 ∈ catalogIds))
    ∧ 0 ≤ show_detect_score [] none
    ∧ show_detect_score [] none ≤ 100 :=
  ⟨⟨by decide, by decide⟩,
   C2_real_score_bounds [] none (by decide) (by decide)⟩

/-- Claim C2, counterexample to the claim as stated: on the valid input of no
symptom responses and the tap sequence `[0, 0, 0.11]`, the code produces the
score `5.5`, which is not an integer — the code never truncates or rounds the
score to an integer at the clamp boundary. -/
theorem C2_counterexample :
    show_detect_score [] (some [0, 0, 11 / 100]) = 11 / 2
    ∧ ¬ ∃ k : ℤ, show_detect_score [] (some [0, 0, 11 / 100]) = (k : ℝ) := by
  have hd : npDiff [(0 : ℝ), 0, 11 / 100] = [0, 11 / 100] := by
    norm_num [npDiff]
  have hv : npVariance [(0 : ℝ), 11 / 100] = (11 / 200) ^ 2 := by
    norm_num [npVariance, npMean]
  have hs : npStd (npDiff [(0 : ℝ), 0, 11 / 100]) = 11 / 200 := by
    rw [hd]
    unfold npStd
    rw [hv]
    exact Real.sqrt_sq (by norm_num)
  have hlen : ¬ ([(0 : ℝ), 0, 11 / 100].length < 2) := by norm_num
  have hrc : (process_tapping_data [(0 : ℝ), 0, 11 / 100]).risk_contribution
      = 11 / 2 := by
    unfold process_tapping_data
    rw [if_neg hlen]
    simp only [hs]
    rw [min_eq_right (by norm_num)]
    norm_num
  have hscore : show_detect_score [] (some [0, 0, 11 / 100]) = 11 / 2 := by
    unfold show_detect_score
    simp only [List.isEmpty_cons, Bool.false_eq_true, if_false, hrc, yesCount,
      List.filter_nil, List.length_nil, Nat.cast_zero, zero_mul, zero_add]
    rw [min_eq_right (by norm_num)]
  refine ⟨hscore, ?_⟩
  rintro ⟨k, hk⟩
  rw [hscore] at hk
  have h1 : (5 : ℝ) < (k : ℝ) := by rw [← hk]; norm_num
  have h2 : (k : ℝ) < 6 := by rw [← hk]; norm_num
  have h1i : (5 : ℤ) < k := by exact_mod_cast h1
  have h2i : k < (6 : ℤ) := by exact_mod_cast h2
  omega

/-- Claim C5: whenever the workflow state is not `ReportGenerated` (in the
code: `st.session_state.report_generated` is false), an attempt to reach the
dialogue assistant is rejected with a guidance message instead of running;
the rejection is a normal return (never a fatal failure) and leaves the whole
session state — risk score, symptoms, tapping data, report flag, and
conversation history — unchanged. -/
theorem C5_workflow_gate (st : SessionState) (query : Option String) (coin : ℕ)
    (h : st.report_generated = false) :
    show_personalize st query coin
      = (PersonalizeOutcome.guidance
          "Please generate a report in the Connect section first.", st) := by
  unfold show_personalize
  simp [h]

theorem C5_workflow_gate_witness :
    (SessionState.mk none [] none false []).report_generated = false
    ∧ show_personalize (SessionState.mk none [] none false []) (some "hello") 0
        = (PersonalizeOutcome.guidance
            "Please generate a report in the Connect section first.",
           SessionState.mk none [] none false []) :=
  ⟨rfl, C5_workflow_gate (SessionState.mk none [] none false []) (some "hello") 0 rfl⟩

/-- Claim C7: every handled dialogue call appends exactly two entries to the
conversation history — first the query with role `user`, then the response
with role `assistant`, in that order — and changes nothing else in the
session state before returning. -/
theorem C7_history_append (st : SessionState) (query : String) (coin : ℕ) :
    (handle_user_query st query coin).2.messages
      = st.messages
        ++ [Message.mk "user" query,
            Message.mk "assistant" (handle_user_query st query coin).1]
    ∧ (handle_user_query st query coin).2.risk_score = st.risk_score
    ∧ (handle_user_query st query coin).2.symptoms = st.symptoms
    ∧ (handle_user_query st query coin).2.tapping_data = st.tapping_data
    ∧ (handle_user_query st query coin).2.report_generated
        = st.report_generated := by
  unfold handle_user_query
  refine ⟨?_, rfl, rfl, rfl, rfl⟩
  simp

/-- Claim C9: for every responses mapping and every score, the structured
report contains exactly the fields `risk_score`, `symptoms` (a snapshot of
the id-to-answer mapping), `date`, and `recommendations`, and the
`recommendations` field is the same fixed ordered sequence of three strings
regardless of the score value. -/
theorem C9_structured_report (symptoms : List (String × String))
    (risk_score risk_score' : ℝ) (now : String) :
    generate_report symptoms risk_score now
      = Report.mk risk_score symptoms now fixedRecommendations
    ∧ (generate_report symptoms risk_score now).symptoms = symptoms
    ∧ (generate_report symptoms risk_score now).recommendations.length = 3
    ∧ (generate_report symptoms risk_score now).recommendations
        = (generate_report symptoms risk_score' now).recommendations :=
  ⟨rfl, rfl, rfl, rfl⟩

/-- Claim C10: for every query string and every pair of `risk_score` arguments
(including the absent `none`), given the same pseudo-random state, the
rule-based responder returns the identical response string — its output does
not depend on the `risk_score` argument in any way. -/
theorem C10_risk_score_noninterference (query : String) (coin : ℕ)
    (risk_score₁ risk_score₂ : Option ℝ) :
    get_response query risk_score₁ coin = get_response query risk_score₂ coin :=
  rfl

theorem find_eq_some_split {α : Type} (p : α → Bool) (l : List α) (r : α)
    (h : l.find? p = some r) :
    ∃ pre post, l = pre ++ r :: post
      ∧ (∀ a ∈ pre, p a = false) ∧ p r = true := by
  induction l with
  | nil => simp [List.find?] at h
  | cons a t ih =>
    by_cases hp : p a = true
    · rw [List.find?_cons_of_pos _ hp] at h
      cases h
      exact ⟨[], t, rfl, by simp, hp⟩
    · rw [List.find?_cons_of_neg _ hp] at h
      obtain ⟨pre, post, hl, hpre, hr⟩ := ih h
      refine ⟨a :: pre, post, by simp [hl], ?_, hr⟩
      intro x hx
      rcases List.mem_cons.mp hx with rfl | hx2
      · exact Bool.not_eq_true _ ▸ Bool.eq_false_iff.mpr hp
      · exact hpre x hx2

theorem choice_mem (xs : List String) (coin : ℕ) (h : xs ≠ []) :
    choice xs coin ∈ xs := by
  have hlen : 0 < xs.length := List.length_pos.mpr h
  have hm : coin % xs.length < xs.length := Nat.mod_lt _ hlen
  unfold choice
  rw [List.getD_eq_getElem?_getD, List.getElem?_eq_getElem hm, Option.getD_some]
  exact List.getElem_mem hm

theorem rules_responses_ne_nil (r : List String × List String)
    (hr : r ∈ RESPONSE_RULES) : r.2 ≠ [] := by
  simp only [RESPONSE_RULES, List.mem_cons, List.not_mem_nil, or_false] at hr
  rcases hr with rfl | rfl | rfl | rfl | rfl <;>
    simp [symptomResponses, treatmentResponses, exerciseResponses,
      dietResponses, riskFactorResponses]

/-- Claim C6: for every query, the rule-based responder lower-cases the query
and tests the topic patterns in declaration order (symptoms, treatment,
exercise, diet, risk-factors); the returned response belongs to the
first-declared matching topic's fixed response set, never a later one (the
first matching rule splits the rule list with no earlier match); the query
`"What exercises help?"` returns a response drawn only from the exercise
topic's response set; a query matching no pattern returns a response from the
default set. -/
theorem C6_first_match (query : String) (risk_score : Option ℝ) (coin : ℕ) :
    (∀ rule, RESPONSE_RULES.find? (fun p => matchesRule (pyLower query) p.1)
        = some rule →
      get_response query risk_score coin ∈ rule.2
      ∧ ∃ pre post, RESPONSE_RULES = pre ++ rule :: post
          ∧ (∀ p ∈ pre, matchesRule (pyLower query) p.1 = false)
          ∧ matchesRule (pyLower query) rule.1 = true)
    ∧ (RESPONSE_RULES.find? (fun p => matchesRule (pyLower query) p.1) = none →
        get_response query risk_score coin ∈ DEFAULT_RESPONSES)
    ∧ (∀ c : ℕ, get_response "What exercises help?" risk_score c
        ∈ exerciseResponses) := by
  refine ⟨?_, ?_, ?_⟩
  · intro rule hfind
    constructor
    · have hne := rules_responses_ne_nil rule (List.mem_of_find?_eq_some hfind)
      unfold get_response
      rw [hfind]
      exact choice_mem _ _ hne
    · obtain ⟨pre, post, h1, h2, h3⟩ := find_eq_some_split _ _ _ hfind
      exact ⟨pre, post, h1, h2, h3⟩
  · intro hfind
    unfold get_response
    rw [hfind]
    exact choice_mem _ _ (by simp [DEFAULT_RESPONSES])
  · intro c
    have hfind : RESPONSE_RULES.find?
        (fun p => matchesRule (pyLower "What exercises help?") p.1)
        = some (["exercise", "activity", "physical"], exerciseResponses) := by
      decide
    unfold get_response
    rw [hfind]
    exact choice_mem _ _ (by simp [exerciseResponses])

theorem C6_first_match_witness :
    RESPONSE_RULES.find?
        (fun p => matchesRule (pyLower "What exercises help?") p.1)
      = some (["exercise", "activity", "physical"], exerciseResponses)
    ∧ get_response "What exercises help?" none 0
        ∈ (["exercise", "activity", "physical"], exerciseResponses).2 := by
  have h := (C6_first_match "What exercises help?" none 0).1
    (["exercise", "activity", "physical"], exerciseResponses) (by decide)
  exact ⟨by decide, h.1⟩

/-- Claim C8: for every SymptomResponses, the text summary lists only the
symptom ids whose response is `"Yes"`, comma-joined in catalog order (given
that the responses mapping follows catalog order, as the Detect page builds
it), and when the set of positive symptoms is empty the rendered string
contains the literal substring `"None"` in its place. -/
theorem C8_text_summary (symptoms : List (String × String))
    (riskScoreText nowText : String)
    (hord : (symptoms.map Prod.fst).Sublist catalogIds) :
    (positiveSymptoms symptoms).Sublist catalogIds
    ∧ (∀ i ∈ positiveSymptoms symptoms, (i, "Yes") ∈ symptoms)
    ∧ ContainsStr (generate_text_report symptoms riskScoreText nowText)
        (if (positiveSymptoms symptoms).isEmpty then "None"
         else String.intercalate ", " (positiveSymptoms symptoms))
    ∧ ((positiveSymptoms symptoms).isEmpty = true →
        ContainsStr (generate_text_report symptoms riskScoreText nowText)
          "None") := by
  have hsub : (positiveSymptoms symptoms).Sublist catalogIds := by
    unfold positiveSymptoms
    exact List.Sublist.trans (List.Sublist.map Prod.fst (List.filter_sublist _)) hord
  have hyes : ∀ i ∈ positiveSymptoms symptoms, (i, "Yes") ∈ symptoms := by
    intro i hi
    unfold positiveSymptoms at hi
    rcases List.mem_map.mp hi with ⟨p, hp, rfl⟩
    rcases List.mem_filter.mp hp with ⟨hpm, hpv⟩
    have h2 : p.2 = "Yes" := by simpa using hpv
    cases p with
    | mk a b =>
      cases h2
      exact hpm
  have hcontains : ContainsStr (generate_text_report symptoms riskScoreText nowText)
      (if (positiveSymptoms symptoms).isEmpty then "None"
       else String.intercalate ", " (positiveSymptoms symptoms)) :=
    ⟨"NeuroBridge Health Report\nGenerated on: " ++ nowText ++
       "\n\nRisk Score: " ++ riskScoreText ++ "%\n\nSymptoms reported:\n",
     "\n\nRecommendations:\n- Discuss these results with a healthcare provider\n- Monitor symptoms regularly\n- Consider lifestyle modifications like regular exercise and a balanced diet\n\nNote: This is a screening tool, not a medical diagnosis.\n",
     rfl⟩
  refine ⟨hsub, hyes, hcontains, fun he => ?_⟩
  rw [he] at hcontains
  simpa using hcontains

theorem C8_text_summary_witness :
    (([("tremor", "Yes"), ("rigidity", "No")].map Prod.fst).Sublist catalogIds)
    ∧ (positiveSymptoms [("tremor", "Yes"), ("rigidity", "No")]).Sublist catalogIds
    ∧ ContainsStr
        (generate_text_report [("tremor", "Yes"), ("rigidity", "No")] "10" "d")
        (if (positiveSymptoms [("tremor", "Yes"), ("rigidity", "No")]).isEmpty
         then "None"
         else String.intercalate ", "
           (positiveSymptoms [("tremor", "Yes"), ("rigidity", "No")])) := by
  have hord : (([("tremor", "Yes"), ("rigidity", "No")].map Prod.fst).Sublist
      catalogIds) := by decide
  have h := C8_text_summary [("tremor", "Yes"), ("rigidity", "No")] "10" "d" hord
  exact ⟨hord, h.1, h.2.2.1⟩
